import Mathlib

/-
Shallow embedding of the OTA feature-report protocol engine of ota.ts:
the transmitter chunking loop of otaSend, the receiver loop of processFR,
the post-loop result handling (JSON.parse then error check), and the
otaSend / otaClose entry points.

Modelling conventions:
* Byte strings (UTF-8 encoded command text, decoded payload text, raw
  feature-report buffers) are modelled as `List Nat`, one entry per byte /
  code unit.  The command vocabulary of the protocol is plain ASCII, for
  which TextEncoder / TextDecoder are the identity on code points, so byte
  length and string length coincide.
* JavaScript `x & 0xff` on a non-negative number is `x % 256`;
  `(x >> 8) & 0xff` is `x / 256 % 256`.
* `Math.max(0, a - b)` on non-negative numbers is truncated `Nat`
  subtraction `a - b`.
* Fallible JavaScript steps (thrown exceptions) are modelled with
  `Option` / explicit outcome constructors.
-/

/-- One outgoing feature-report frame as assembled by otaSend (lines
323-326 of ota.ts): message type byte, the two bytes of the length field
(`remaining & 0xff` and `(remaining >> 8) & 0xff`), and the payload chunk
`uint8Array.slice(offset, offset + chunkLen)` (before zero padding). -/
structure OutFrame where
  msgType : Nat
  lenLo : Nat
  lenHi : Nat
  chunk : List Nat
deriving DecidableEq

/-- `OTA_FR.write.maxData = 244 - 5` (ota.ts line 151): the maximal
payload chunk carried by one outgoing 244-byte feature report. -/
def otaWriteMaxData : Nat := 244 - 5

/-- The chunking loop of otaSend (ota.ts lines 316-336):
`while (offset < uint8Array.length)` take `chunkLen = min(maxData,
remaining)` bytes, emit a frame whose header is
`[0x00, 0xFF, msgType, remaining & 0xff, (remaining >> 8) & 0xff]` with
`msgType = chunkIndex === 0 ? 0x00 : 0x01`, then advance the offset.
The first argument is fuel: every iteration consumes at least one byte of
the remaining suffix, so fuel equal to the length of the suffix is enough
to run the loop to completion (the loop ends when the suffix is empty). -/
def otaChunkGo : Nat → List Nat → Nat → List OutFrame
  | 0, _, _ => []
  | _ + 1, [], _ => []
  | fuel + 1, b :: bs, idx =>
    let remaining := (b :: bs).length
    let chunkLen := min otaWriteMaxData remaining
    { msgType := if idx = 0 then 0 else 1
      lenLo := remaining % 256
      lenHi := remaining / 256 % 256
      chunk := (b :: bs).take chunkLen } :: otaChunkGo fuel ((b :: bs).drop chunkLen) (idx + 1)

/-- The full sequence of frames written by otaSend for the encoded command
bytes `p` (running the loop of lines 316-336 with `offset = 0`,
`chunkIndex = 0`). -/
def otaFrames (p : List Nat) : List OutFrame := otaChunkGo p.length p 0

/-- The 244-byte buffer actually passed to sendFeatureReport (lines
323-326): `new Uint8Array(244).fill(0)`, then the 5-byte header at offset
0 and the chunk at offset 5. -/
def outFrameBytes (f : OutFrame) : List Nat :=
  0 :: 255 :: f.msgType :: f.lenLo :: f.lenHi ::
    (f.chunk ++ List.replicate (otaWriteMaxData - f.chunk.length) 0)

/-- The value of the 16-bit little-endian length field stored at bytes 3
and 4 of an outgoing frame. -/
def frameLenField (f : OutFrame) : Nat :=
  (outFrameBytes f).getD 3 0 + 256 * (outFrameBytes f).getD 4 0

/-- The incoming feature report that matches an outgoing frame: the
incoming layout of ota.ts lines 153-160 is
`[0]=reportId, [1]=0x00, [2]=0xFF, [3]=msgType, [4]=lenLSB, [5]=lenMSB`
followed by the payload; report id is 6 (`OTA_FR.id`).  This is used to
feed the receiver the frames a device would echo when forwarding the
transmitted header fields and chunk. -/
def toIncoming (f : OutFrame) : List Nat :=
  6 :: 0 :: 255 :: f.msgType :: f.lenLo :: f.lenHi :: f.chunk

/-- The error channel of processFR (`reportResponse.error`): set to the
decoded NACK payload (line 275), to the fixed empty-response string (line
278), or to the unknown-message-type message with the offending byte
(line 284). -/
inductive RErr where
  | nack (msg : List Nat)
  | emptyResponse
  | unknownMessageType (t : Nat)
deriving DecidableEq

/-- The mutable state of the receive loop of processFR (lines 237-288):
the `remaining` counter (initialised to 1), the recorded error, and the
accumulated payload text `reportResponse.data`. -/
structure RState where
  remaining : Nat
  error : Option RErr
  data : List Nat
deriving DecidableEq

/-- One iteration body of the processFR loop after decoding (lines
257-286): truncate the decoded payload to
`min(reportLength, data.length)`, set `remaining = 0`, then dispatch on
the message type byte exactly as the switch statement does.  Message
types: 0 FIRST, 1 MID, 2 ACK_NRSP, 3 ACK_RSP, 4 NACK, 5 EMPTY, 6 RESULT,
anything else hits the default branch. -/
def receiverDispatch (s : RState) (msgType reportLength : Nat) (payload : List Nat) : RState :=
  let data := payload.take (min reportLength payload.length)
  match msgType with
  | 0 => { remaining := reportLength - data.length, error := s.error, data := s.data ++ data }
  | 1 => { remaining := reportLength - data.length, error := s.error, data := s.data ++ data }
  | 2 => { remaining := 0, error := s.error, data := s.data }
  | 3 => { remaining := 1, error := s.error, data := s.data }
  | 4 => { remaining := 0, error := some (RErr.nack data), data := s.data }
  | 5 => { remaining := 0, error := some RErr.emptyResponse, data := s.data }
  | 6 => { remaining := 0, error := s.error, data := data }
  | t => { remaining := 0, error := some (RErr.unknownMessageType t), data := s.data }

/-- Decoding plus dispatch for one received frame `dv` (lines 250-286).
A frame of at least 6 bytes supplies `msgType = dv.getUint8(3)`,
`reportLength = dv.getUint16(4, true)` and the payload slice from byte 6
on.  For a frame shorter than 6 bytes the code throws: the payload view
`new Uint8Array(dv.buffer, dv.byteOffset + 6, Math.max(0, dv.byteLength -
6))` is constructed with a byte offset past the end of the buffer, which
raises a RangeError (and `getUint16(4, true)` / `getUint8(3)` would be
out of bounds as well); this is modelled as `none`. -/
def receiverStep (s : RState) (dv : List Nat) : Option RState :=
  match dv with
  | _ :: _ :: _ :: b3 :: b4 :: b5 :: payload =>
    some (receiverDispatch s b3 (b4 + 256 * b5) payload)
  | _ => none

/-- Outcome of running the processFR receive loop against a queue of
incoming frames: the loop exits normally (`remaining` reached 0), blocks
on a further `receiveFeatureReport` call because the queue is exhausted
while `remaining` is still non-zero, or crashes decoding a short frame. -/
inductive RunResult where
  | done (s : RState)
  | blocked (s : RState)
  | crashed
deriving DecidableEq

/-- The `while (remaining)` loop of processFR (lines 241-288) run against
a finite queue of incoming frames, starting from state `s`. -/
def runLoop (frames : List (List Nat)) (s : RState) : RunResult :=
  if s.remaining = 0 then RunResult.done s
  else
    match frames with
    | [] => RunResult.blocked s
    | f :: rest =>
      match receiverStep s f with
      | none => RunResult.crashed
      | some s1 => runLoop rest s1

/-- JSON values, as produced by JSON.parse.  Number tokens are kept as
their source character list (their numeric value is irrelevant here) and
strings as their unescaped code-unit list. -/
inductive Json where
  | null
  | bool (b : Bool)
  | num (lit : List Nat)
  | str (chars : List Nat)
  | arr (elems : List Json)
  | obj (fields : List (List Nat × Json))

/-- JSON insignificant whitespace: space, tab, line feed, carriage
return. -/
def isJsonWS (c : Nat) : Bool := c = 32 || c = 9 || c = 10 || c = 13

/-- Skip leading JSON whitespace. -/
def skipWS : List Nat → List Nat
  | [] => []
  | c :: cs => if isJsonWS c then skipWS cs else c :: cs

/-- ASCII decimal digit. -/
def isDigit (c : Nat) : Bool := 48 ≤ c && c ≤ 57

/-- Split off the longest leading run of decimal digits. -/
def takeDigits : List Nat → List Nat × List Nat
  | [] => ([], [])
  | c :: cs =>
    if isDigit c then
      let p := takeDigits cs
      (c :: p.1, p.2)
    else ([], c :: cs)

/-- Integer part of a JSON number: a single 0, or a nonzero digit
followed by further digits. -/
def parseIntPart : List Nat → Option (List Nat × List Nat)
  | [] => none
  | c :: cs =>
    if c = 48 then some ([48], cs)
    else if isDigit c then
      let p := takeDigits cs
      some (c :: p.1, p.2)
    else none

/-- Optional fraction part of a JSON number: a dot followed by at least
one digit. -/
def parseFracPart : List Nat → Option (List Nat × List Nat)
  | 46 :: cs =>
    match takeDigits cs with
    | ([], _) => none
    | (ds, rest) => some (46 :: ds, rest)
  | rest => some ([], rest)

/-- Optional exponent part of a JSON number: e or E, an optional sign,
then at least one digit. -/
def parseExpPart : List Nat → Option (List Nat × List Nat)
  | [] => some ([], [])
  | c :: cs =>
    if c = 101 || c = 69 then
      let sr : List Nat × List Nat :=
        match cs with
        | 43 :: cs2 => ([43], cs2)
        | 45 :: cs2 => ([45], cs2)
        | _ => ([], cs)
      match takeDigits sr.2 with
      | ([], _) => none
      | (ds, rest) => some (c :: (sr.1 ++ ds), rest)
    else some ([], c :: cs)

/-- A JSON number token: optional minus sign, integer part, optional
fraction, optional exponent. -/
def parseNumber (input : List Nat) : Option (List Nat × List Nat) :=
  let sr : List Nat × List Nat :=
    match input with
    | 45 :: cs => ([45], cs)
    | _ => ([], input)
  match parseIntPart sr.2 with
  | none => none
  | some (ip, r2) =>
    match parseFracPart r2 with
    | none => none
    | some (fp, r3) =>
      match parseExpPart r3 with
      | none => none
      | some (ep, r4) => some (sr.1 ++ ip ++ fp ++ ep, r4)

/-- Value of a hexadecimal digit. -/
def hexVal (c : Nat) : Option Nat :=
  if 48 ≤ c && c ≤ 57 then some (c - 48)
  else if 65 ≤ c && c ≤ 70 then some (c - 55)
  else if 97 ≤ c && c ≤ 102 then some (c - 87)
  else none

/-- Single-character JSON string escapes. -/
def escChar (e : Nat) : Option Nat :=
  if e = 34 || e = 92 || e = 47 then some e
  else if e = 98 then some 8
  else if e = 102 then some 12
  else if e = 110 then some 10
  else if e = 114 then some 13
  else if e = 116 then some 9
  else none

/-- Body of a JSON string after the opening quote: stops at the closing
quote (34), handles backslash escapes including the four-hex-digit
unicode escape, rejects unescaped control characters below 0x20 and
unterminated strings.  The fuel argument bounds the number of consumed
characters; each step consumes at least one. -/
def parseStrChars : Nat → List Nat → Option (List Nat × List Nat)
  | 0, _ => none
  | _ + 1, [] => none
  | fuel + 1, c :: cs =>
    if c = 34 then some ([], cs)
    else if c = 92 then
      match cs with
      | [] => none
      | e :: cs2 =>
        if e = 117 then
          match cs2 with
          | h1 :: h2 :: h3 :: h4 :: cs3 =>
            match hexVal h1, hexVal h2, hexVal h3, hexVal h4 with
            | some v1, some v2, some v3, some v4 =>
              match parseStrChars fuel cs3 with
              | some (out, rest) => some ((((v1 * 16 + v2) * 16 + v3) * 16 + v4) :: out, rest)
              | none => none
            | _, _, _, _ => none
          | _ => none
        else
          match escChar e with
          | some ch =>
            match parseStrChars fuel cs2 with
            | some (out, rest) => some (ch :: out, rest)
            | none => none
          | none => none
    else if c < 32 then none
    else
      match parseStrChars fuel cs with
      | some (out, rest) => some (c :: out, rest)
      | none => none

mutual

/-- A JSON value after optional leading whitespace: null, true, false, a
string, an array (91 / 93 are the square brackets, 44 the comma), an
object (123 / 125 are the curly brackets, 58 the colon), or a number.
The fuel bounds the nesting depth; every nested value is preceded by at
least one consumed character, so fuel `input.length + 1` always
suffices. -/
def parseValue : Nat → List Nat → Option (Json × List Nat)
  | 0, _ => none
  | fuel + 1, input =>
    match skipWS input with
    | [] => none
    | c :: cs =>
      if c = 110 then
        match cs with
        | 117 :: 108 :: 108 :: rest => some (Json.null, rest)
        | _ => none
      else if c = 116 then
        match cs with
        | 114 :: 117 :: 101 :: rest => some (Json.bool true, rest)
        | _ => none
      else if c = 102 then
        match cs with
        | 97 :: 108 :: 115 :: 101 :: rest => some (Json.bool false, rest)
        | _ => none
      else if c = 34 then
        match parseStrChars (cs.length + 1) cs with
        | some (s, rest) => some (Json.str s, rest)
        | none => none
      else if c = 91 then
        match skipWS cs with
        | 93 :: rest => some (Json.arr [], rest)
        | _ =>
          match parseArrayItems fuel cs with
          | some (xs, rest) => some (Json.arr xs, rest)
          | none => none
      else if c = 123 then
        match skipWS cs with
        | 125 :: rest => some (Json.obj [], rest)
        | _ =>
          match parseObjectItems fuel cs with
          | some (kvs, rest) => some (Json.obj kvs, rest)
          | none => none
      else
        match parseNumber (c :: cs) with
        | some (lit, rest) => some (Json.num lit, rest)
        | none => none

/-- Comma-separated array elements up to the closing square bracket. -/
def parseArrayItems : Nat → List Nat → Option (List Json × List Nat)
  | 0, _ => none
  | fuel + 1, input =>
    match parseValue fuel input with
    | none => none
    | some (v, rest) =>
      match skipWS rest with
      | 44 :: rest2 =>
        match parseArrayItems fuel rest2 with
        | some (xs, rest3) => some (v :: xs, rest3)
        | none => none
      | 93 :: rest2 => some ([v], rest2)
      | _ => none

/-- Comma-separated key-value pairs up to the closing curly bracket. -/
def parseObjectItems : Nat → List Nat → Option (List (List Nat × Json) × List Nat)
  | 0, _ => none
  | fuel + 1, input =>
    match skipWS input with
    | 34 :: cs =>
      match parseStrChars (cs.length + 1) cs with
      | none => none
      | some (key, rest) =>
        match skipWS rest with
        | 58 :: rest2 =>
          match parseValue fuel rest2 with
          | none => none
          | some (v, rest3) =>
            match skipWS rest3 with
            | 44 :: rest4 =>
              match parseObjectItems fuel rest4 with
              | some (kvs, rest5) => some ((key, v) :: kvs, rest5)
              | none => none
            | 125 :: rest4 => some ([(key, v)], rest4)
            | _ => none
        | _ => none
    | _ => none

end

/-- JSON.parse: a single JSON value covering the whole input up to
trailing whitespace, otherwise a SyntaxError (modelled as `none`). -/
def jsonParse (bytes : List Nat) : Option Json :=
  match parseValue (bytes.length + 1) bytes with
  | some (v, rest) => if skipWS rest = [] then some v else none
  | none => none

/-- How a processFR exchange fails after the loop exits (lines 290-297):
`JSON.parse` throwing on a non-empty accumulated payload, or the recorded
error being thrown. -/
inductive FRFailure where
  | parseFailed
  | reported (e : RErr)
deriving DecidableEq

/-- The post-loop tail of processFR (lines 290-299) run on the final loop
state: if the accumulated payload is non-empty it is fed to `JSON.parse`
first (a parse failure throws before anything else); only then is a
recorded error thrown; otherwise the parsed value (or, for an empty
accumulator, the empty string, modelled as `none`) is returned. -/
def finishFR (s : RState) : Except FRFailure (Option Json) :=
  if s.data.length > 0 then
    match jsonParse s.data with
    | none => Except.error FRFailure.parseFailed
    | some v =>
      match s.error with
      | some e => Except.error (FRFailure.reported e)
      | none => Except.ok (some v)
  else
    match s.error with
    | some e => Except.error (FRFailure.reported e)
    | none => Except.ok none

/-- The transport handle as far as the engine observes it: the HIDDevice
`opened` flag. -/
structure Device where
  opened : Bool
deriving DecidableEq

/-- The precondition errors of otaSend (line 303): in source order, no
connected device, device not opened, empty command text (the literal
message is the string `No data`, which the specification files under the
DataTooLong / empty-command kind). -/
inductive SendErr where
  | noConnectedDevice
  | deviceNotOpened
  | noData
deriving DecidableEq

/-- Observable outcome of the transmit half of otaSend: either a
precondition failure together with the (empty) list of frames written
before failing, or the full list of frames written to the transport. -/
inductive SendOutcome where
  | failed (e : SendErr) (writes : List OutFrame)
  | sent (writes : List OutFrame)
deriving DecidableEq

/-- The otaSend entry point up to and including the write loop (lines
302-336): the chained precondition check
`!device ? noConnectedDevice : !device.opened ? deviceNotOpened : !data ?
noData : undefined` throws before the encoder runs and before any
sendFeatureReport call; otherwise every chunk frame is written in order.
(The subsequent receive half is processFR, modelled separately.) -/
def otaSendModel (device : Option Device) (data : List Nat) : SendOutcome :=
  match device with
  | none => SendOutcome.failed SendErr.noConnectedDevice []
  | some d =>
    if d.opened then
      if data.isEmpty then SendOutcome.failed SendErr.noData []
      else SendOutcome.sent (otaFrames data)
    else SendOutcome.failed SendErr.deviceNotOpened []

/-- Errors surfaced by otaClose (lines 220-227): missing device handle,
or the wrapped transport close error. -/
inductive CloseErr where
  | noDeviceSpecified
  | closeError
deriving DecidableEq

/-- The otaClose entry point (lines 220-227).  Arguments: the current
global session handle `ota_g.device`, the device argument, and whether
the underlying `device.close()` call fails.  Result: the new value of
`ota_g.device` and the thrown error, if any.  The source sets
`ota_g.device = null` unconditionally before calling `device.close()`,
so the session is detached even when close throws. -/
def otaCloseModel (g : Option Device) (device : Option Device) (closeFails : Bool) :
    Option Device × Option CloseErr :=
  match device with
  | none => (g, some CloseErr.noDeviceSpecified)
  | some d =>
    if d.opened then
      if closeFails then (none, some CloseErr.closeError) else (none, none)
    else (none, none)

set_option maxRecDepth 100000 in
/-- C4: sending the 500-byte payload produces exactly three outgoing
frames with message types FIRST, MID, MID and payload chunk lengths 239,
239 and 22, and the receiver, fed the matching incoming frames,
accumulates exactly the 500 payload bytes and then exits its loop. -/
theorem C4_multiframe :
    (otaFrames (List.replicate 500 97)).map OutFrame.msgType = [0, 1, 1] ∧
    (otaFrames (List.replicate 500 97)).map (fun f => f.chunk.length) = [239, 239, 22] ∧
    runLoop ((otaFrames (List.replicate 500 97)).map toIncoming) ⟨1, none, []⟩ =
      RunResult.done ⟨0, none, List.replicate 500 97⟩ :=
  ⟨by decide, by decide, by decide⟩

/-- C6: the receiver does not decode a frame shorter than 6 bytes
normally: the payload view is constructed with byte offset 6 past the end
of the buffer, which throws a RangeError (modelled as `none`), so the
exchange crashes instead of continuing with an empty payload slice
(shown here on a 3-byte frame). -/
theorem C6_short_frame_crashes :
    receiverStep ⟨1, none, []⟩ [6, 0, 255] = none ∧
    runLoop [[6, 0, 255]] ⟨1, none, []⟩ = RunResult.crashed :=
  ⟨rfl, rfl⟩

/-- C7: whenever the receiver reads a frame whose message type byte is 3
(ACK_RSP), the resulting state has `remaining = 1` no matter what the
previous state was, the loop therefore goes on to one more transport
read, and with no further frame available it is left waiting on that
read instead of exiting. -/
theorem C7_ack_rsp (s : RState) (b0 b1 b2 b4 b5 : Nat) (payload : List Nat)
    (rest : List (List Nat)) (hs : s.remaining ≠ 0) :
    receiverStep s (b0 :: b1 :: b2 :: 3 :: b4 :: b5 :: payload) =
      some { s with remaining := 1 } ∧
    runLoop ((b0 :: b1 :: b2 :: 3 :: b4 :: b5 :: payload) :: rest) s =
      runLoop rest { s with remaining := 1 } ∧
    runLoop [b0 :: b1 :: b2 :: 3 :: b4 :: b5 :: payload] s =
      RunResult.blocked { s with remaining := 1 } := by
  refine ⟨rfl, ?_, ?_⟩
  · rw [runLoop, if_neg hs]
    rfl
  · rw [runLoop, if_neg hs]
    rfl

/-- C7 witness: an ACK_RSP frame received in a state with one byte
already accumulated forces `remaining = 1` and one further read. -/
theorem C7_ack_rsp_witness :
    (RState.mk 1 none [97]).remaining ≠ 0 ∧
    (receiverStep ⟨1, none, [97]⟩ [6, 0, 255, 3, 0, 0] = some ⟨1, none, [97]⟩ ∧
     runLoop [[6, 0, 255, 3, 0, 0], [6, 0, 255, 2, 0, 0]] ⟨1, none, [97]⟩ =
       runLoop [[6, 0, 255, 2, 0, 0]] ⟨1, none, [97]⟩ ∧
     runLoop [[6, 0, 255, 3, 0, 0]] ⟨1, none, [97]⟩ = RunResult.blocked ⟨1, none, [97]⟩) :=
  ⟨by decide, C7_ack_rsp ⟨1, none, [97]⟩ 6 0 255 0 0 [] [[6, 0, 255, 2, 0, 0]] (by decide)⟩

/-- C8: otaSend on a transport whose opened flag is false fails with the
DeviceNotOpened error and performs no transport write at all. -/
theorem C8_not_opened (d : Device) (data : List Nat) (h : d.opened = false) :
    otaSendModel (some d) data = SendOutcome.failed SendErr.deviceNotOpened [] := by
  simp [otaSendModel, h]

/-- C8 witness: a closed device with command text hb. -/
theorem C8_not_opened_witness :
    (Device.mk false).opened = false ∧
    otaSendModel (some (Device.mk false)) [104, 98] =
      SendOutcome.failed SendErr.deviceNotOpened [] :=
  ⟨by decide, C8_not_opened (Device.mk false) [104, 98] (by decide)⟩

/-- C9: otaSend on an open transport with empty command text fails with
the no-data empty-command error (the error kind the specification calls
DataTooLong) before any transport write. -/
theorem C9_empty_command (d : Device) (h : d.opened = true) :
    otaSendModel (some d) [] = SendOutcome.failed SendErr.noData [] := by
  simp [otaSendModel, h]

/-- C9 witness: an open device with empty command text. -/
theorem C9_empty_command_witness :
    (Device.mk true).opened = true ∧
    otaSendModel (some (Device.mk true)) [] = SendOutcome.failed SendErr.noData [] :=
  ⟨by decide, C9_empty_command (Device.mk true) (by decide)⟩

/-- C10: otaClose stores null into the session handle ota_g.device
before attempting the transport close, so when the underlying close
fails and the wrapped close error is thrown the session is already
detached — close is not atomic on error. -/
theorem C10_close_detaches (g : Option Device) (d : Device) (hopen : d.opened = true) :
    otaCloseModel g (some d) true = (none, some CloseErr.closeError) := by
  simp [otaCloseModel, hopen]

/-- C10 witness: closing an open device whose transport close fails,
starting from a session that held that device. -/
theorem C10_close_detaches_witness :
    (Device.mk true).opened = true ∧
    otaCloseModel (some (Device.mk true)) (some (Device.mk true)) true =
      (none, some CloseErr.closeError) :=
  ⟨by decide, C10_close_detaches (some (Device.mk true)) (Device.mk true) (by decide)⟩

lemma otaChunkGo_nil (fuel idx : Nat) : otaChunkGo fuel [] idx = [] := by
  cases fuel <;> rfl

/-- Unfolding one iteration of the otaSend chunking loop on a non-empty
remaining suffix (`otaWriteMaxData` is definitionally 239). -/
lemma otaChunkGo_cons_step (fuel idx b : Nat) (bs : List Nat) :
    otaChunkGo (fuel + 1) (b :: bs) idx =
      { msgType := if idx = 0 then 0 else 1,
        lenLo := (b :: bs).length % 256,
        lenHi := (b :: bs).length / 256 % 256,
        chunk := (b :: bs).take (min 239 (b :: bs).length) } ::
        otaChunkGo fuel ((b :: bs).drop (min 239 (b :: bs).length)) (idx + 1) := rfl

/-- Recombining the two length-field bytes of a frame recovers the
declared value modulo 2^16; below 2^16 it is exact. -/
lemma lenField_sum (L : Nat) (h : L < 65536) :
    L % 256 + 256 * (L / 256 % 256) = L := by
  have h2 : L % (256 * 256) = L % 256 + 256 * (L / 256 % 256) := Nat.mod_mul
  have h3 : L % (256 * 256) = L := Nat.mod_eq_of_lt (by omega)
  omega

/-- Processing one FIRST or MID frame whose payload chunk is no longer
than its declared length field: the chunk is appended to the accumulator
and `remaining` becomes declared length minus chunk length. -/
lemma runLoop_cons_firstmid (r : Nat) (acc : List Nat) (m lo hi : Nat) (chunk : List Nat)
    (rest : List (List Nat)) (hr : r ≠ 0) (hm : m = 0 ∨ m = 1)
    (hlen : chunk.length ≤ lo + 256 * hi) :
    runLoop ((6 :: 0 :: 255 :: m :: lo :: hi :: chunk) :: rest) ⟨r, none, acc⟩ =
      runLoop rest ⟨lo + 256 * hi - chunk.length, none, acc ++ chunk⟩ := by
  rw [runLoop, if_neg hr]
  have hmin : min (lo + 256 * hi) chunk.length = chunk.length := Nat.min_eq_right hlen
  rcases hm with hm | hm <;> subst hm <;>
    simp [receiverStep, receiverDispatch, hmin, List.take_length]

/-- The reassembly invariant behind the chunking round trip: running the
receiver on the frames the transmitter produces for a non-empty suffix of
fewer than 2^16 bytes appends exactly that suffix to the accumulator and
ends the loop with `remaining = 0`. -/
lemma roundtrip_aux (fuel : Nat) :
    ∀ (bs acc : List Nat) (idx r : Nat),
      bs.length ≤ fuel → bs ≠ [] → bs.length < 65536 → r ≠ 0 →
      runLoop ((otaChunkGo fuel bs idx).map toIncoming) ⟨r, none, acc⟩ =
        RunResult.done ⟨0, none, acc ++ bs⟩ := by
  induction fuel with
  | zero =>
    intro bs acc idx r hfuel hne _ _
    cases bs with
    | nil => exact absurd rfl hne
    | cons b tl => simp at hfuel
  | succ fuel ih =>
    intro bs acc idx r hfuel hne hlen hr
    cases bs with
    | nil => exact absurd rfl hne
    | cons b tl =>
      rw [otaChunkGo_cons_step, List.map_cons, toIncoming]
      have hsum : (b :: tl).length % 256 + 256 * ((b :: tl).length / 256 % 256) =
          (b :: tl).length := lenField_sum _ hlen
      have hchunklen :
          ((b :: tl).take (min 239 (b :: tl).length)).length = min 239 (b :: tl).length := by
        rw [List.length_take]
        exact Nat.min_eq_left (Nat.min_le_right _ _)
      rw [runLoop_cons_firstmid _ _ _ _ _ _ _ hr
        (by by_cases hidx : idx = 0 <;> simp [hidx])
        (by rw [hsum, hchunklen]; exact Nat.min_le_right _ _)]
      rw [hsum, hchunklen]
      rcases le_or_lt (b :: tl).length 239 with hle | hlt
      · have hminL : min 239 (b :: tl).length = (b :: tl).length := Nat.min_eq_right hle
        rw [hminL, List.take_length, List.drop_length, otaChunkGo_nil]
        simp [runLoop]
      · have hminL : min 239 (b :: tl).length = 239 := Nat.min_eq_left (Nat.le_of_lt hlt)
        rw [hminL]
        have hdl : ((b :: tl).drop 239).length = (b :: tl).length - 239 := List.length_drop _ _
        rw [ih ((b :: tl).drop 239) (acc ++ (b :: tl).take 239) (idx + 1)
          ((b :: tl).length - 239)
          (by rw [hdl]; omega)
          (List.ne_nil_of_length_pos (by rw [hdl]; omega))
          (by rw [hdl]; omega)
          (by omega)]
        rw [List.append_assoc, List.take_append_drop]

/-- C1 (amended): for every payload of at least one and fewer than 2^16
bytes, splitting it with the transmitter into chunks of at most 239 bytes
and reassembling the resulting frames with the receiver FIRST/MID logic
(each frame declaring the correctly decreasing remaining count) yields
exactly the original payload, with the loop exiting at `remaining = 0`
and no error recorded. -/
theorem C1_roundtrip (p : List Nat) (h1 : p ≠ []) (h2 : p.length < 65536) :
    runLoop ((otaFrames p).map toIncoming) ⟨1, none, []⟩ = RunResult.done ⟨0, none, p⟩ := by
  have h := roundtrip_aux p.length p [] 0 1 le_rfl h1 h2 one_ne_zero
  simpa using h

/-- C1 witness: the two-byte payload hb round-trips through chunking and
reassembly. -/
theorem C1_roundtrip_witness :
    ([104, 98] : List Nat) ≠ [] ∧ ([104, 98] : List Nat).length < 65536 ∧
    runLoop ((otaFrames [104, 98]).map toIncoming) ⟨1, none, []⟩ =
      RunResult.done ⟨0, none, [104, 98]⟩ :=
  ⟨by decide, by decide, C1_roundtrip [104, 98] (by decide) (by decide)⟩

/-- The receive loop returns immediately once `remaining` is 0,
whatever frames are still queued. -/
lemma runLoop_done (frames : List (List Nat)) (e : Option RErr) (d : List Nat) :
    runLoop frames ⟨0, e, d⟩ = RunResult.done ⟨0, e, d⟩ := by
  cases frames <;> rfl

lemma replicate65536_cons : List.replicate 65536 (97 : Nat) = 97 :: List.replicate 65535 97 := by
  rw [show (65536 : Nat) = 65535 + 1 by norm_num, List.replicate_succ]

/-- The first frame otaSend emits for a 65536-byte payload: the length
field bytes are `65536 & 0xff = 0` and `(65536 >> 8) & 0xff = 0`, so the
declared length wraps to 0. -/
lemma otaFrames_replicate65536 :
    otaFrames (List.replicate 65536 97) =
      { msgType := 0, lenLo := 0, lenHi := 0, chunk := List.replicate 239 97 } ::
        otaChunkGo 65535 (List.replicate 65297 97) 1 := by
  rw [otaFrames, List.length_replicate]
  rw [show (65536 : Nat) = 65535 + 1 by norm_num]
  rw [List.replicate_succ, otaChunkGo_cons_step]
  have hL : (97 :: List.replicate 65535 (97 : Nat)).length = 65536 := by
    rw [List.length_cons, List.length_replicate]
  rw [hL]
  have hmin : min 239 65536 = 239 := by norm_num [Nat.min_def]
  rw [hmin]
  have htake : (97 :: List.replicate 65535 (97 : Nat)).take 239 = List.replicate 239 97 := by
    rw [← List.replicate_succ, ← show (65536 : Nat) = 65535 + 1 by norm_num]
    rw [List.take_replicate]
    norm_num [Nat.min_def]
  have hdrop : (97 :: List.replicate 65535 (97 : Nat)).drop 239 = List.replicate 65297 97 := by
    rw [← List.replicate_succ, ← show (65536 : Nat) = 65535 + 1 by norm_num]
    rw [List.drop_replicate]
  rw [htake, hdrop]
  norm_num

set_option maxRecDepth 40000 in
/-- C1 counterexample: the round trip does not hold for every payload
length.  A 65536-byte payload is chunked into frames whose first frame
declares a wrapped length field of 0, so the receiver computes
`remaining = 0` after an empty truncated payload and exits immediately
with an empty accumulator instead of the original payload; and for the
empty payload the transmitter emits no frame at all, leaving the receiver
blocked waiting for a first read. -/
theorem C1_counterexample :
    runLoop ((otaFrames (List.replicate 65536 97)).map toIncoming) ⟨1, none, []⟩ =
      RunResult.done ⟨0, none, []⟩ ∧
    ([] : List Nat) ≠ List.replicate 65536 97 ∧
    runLoop ((otaFrames []).map toIncoming) ⟨1, none, []⟩ =
      RunResult.blocked ⟨1, none, []⟩ := by
  refine ⟨?_, ?_, by decide⟩
  case refine_2 =>
    intro h
    have hlen := congrArg List.length h
    rw [List.length_nil, List.length_replicate] at hlen
    exact absurd hlen (by norm_num)
  rw [otaFrames_replicate65536, List.map_cons, toIncoming]
  rw [runLoop, if_neg one_ne_zero]
  have hstep : receiverStep ⟨1, none, []⟩
      (6 :: 0 :: 255 :: 0 :: 0 :: 0 :: List.replicate 239 97) = some ⟨0, none, []⟩ := rfl
  rw [hstep]
  exact runLoop_done _ none []

/-- Characterisation of the i-th frame produced by the chunking loop: it
exists only for chunk offsets `239 * i` inside the remaining payload, and
its two length-field bytes encode (modulo 2^8 each) the byte count that
is still unsent at the start of that chunk. -/
lemma otaChunkGo_getElem (fuel : Nat) :
    ∀ (bs : List Nat) (idx i : Nat) (f : OutFrame),
      bs.length ≤ fuel → (otaChunkGo fuel bs idx)[i]? = some f →
      239 * i < bs.length ∧
      f.lenLo = (bs.length - 239 * i) % 256 ∧
      f.lenHi = (bs.length - 239 * i) / 256 % 256 := by
  induction fuel with
  | zero =>
    intro bs idx i f hfuel hget
    cases bs with
    | nil => rw [otaChunkGo_nil] at hget; simp at hget
    | cons b tl => simp at hfuel
  | succ fuel ih =>
    intro bs idx i f hfuel hget
    cases bs with
    | nil => rw [otaChunkGo_nil] at hget; simp at hget
    | cons b tl =>
      rw [otaChunkGo_cons_step] at hget
      cases i with
      | zero =>
        rw [List.getElem?_cons_zero, Option.some_inj] at hget
        subst hget
        refine ⟨by simp, by simp, by simp⟩
      | succ i =>
        rw [List.getElem?_cons_succ] at hget
        rcases le_or_lt (b :: tl).length 239 with hle | hlt
        · have hnil : (b :: tl).drop (min 239 (b :: tl).length) = [] := by
            rw [Nat.min_eq_right hle, List.drop_length]
          rw [hnil, otaChunkGo_nil] at hget
          simp at hget
        · have hmin : min 239 (b :: tl).length = 239 := Nat.min_eq_left (Nat.le_of_lt hlt)
          rw [hmin] at hget
          have hlen2 : ((b :: tl).drop 239).length = (b :: tl).length - 239 :=
            List.length_drop _ _
          have h2 := ih ((b :: tl).drop 239) (idx + 1) i f (by rw [hlen2]; omega) hget
          rw [hlen2] at h2
          have harg : (b :: tl).length - 239 - 239 * i = (b :: tl).length - 239 * (i + 1) := by
            omega
          refine ⟨by omega, ?_, ?_⟩
          · rw [h2.2.1, harg]
          · rw [h2.2.2, harg]

/-- Specialisation of the frame characterisation to a full otaSend run. -/
lemma otaFrames_getElem (p : List Nat) (i : Nat) (f : OutFrame)
    (h : (otaFrames p)[i]? = some f) :
    239 * i < p.length ∧ f.lenLo = (p.length - 239 * i) % 256 ∧
    f.lenHi = (p.length - 239 * i) / 256 % 256 :=
  otaChunkGo_getElem p.length p 0 i f le_rfl h

/-- C2 (amended): for every non-empty command text whose encoded length
is below 2^16 bytes, the 16-bit little-endian length field at bytes 3-4
of each outgoing frame equals the number of payload bytes not yet sent at
the start of that chunk, i.e. the total encoded byte length minus the
offset `239 * i` already sent before chunk `i`.  (For longer payloads the
field holds that count only modulo 2^16, see the counterexample.) -/
theorem C2_lenField (p : List Nat) (i : Nat) (f : OutFrame)
    (h1 : p ≠ []) (h2 : p.length < 65536) (h : (otaFrames p)[i]? = some f) :
    frameLenField f = p.length - 239 * i := by
  have hc := otaFrames_getElem p i f h
  have hsum := lenField_sum (p.length - 239 * i) (by omega)
  have hflf : frameLenField f = f.lenLo + 256 * f.lenHi := rfl
  rw [hflf, hc.2.1, hc.2.2, hsum]

set_option maxRecDepth 100000 in
/-- C2 witness: for a 250-byte payload the second frame (offset 239)
declares the 11 bytes still unsent at its start. -/
theorem C2_lenField_witness :
    (List.replicate 250 (97 : Nat)) ≠ [] ∧
    (List.replicate 250 (97 : Nat)).length < 65536 ∧
    (otaFrames (List.replicate 250 97))[1]? =
      some ⟨1, 11, 0, List.replicate 11 97⟩ ∧
    frameLenField ⟨1, 11, 0, List.replicate 11 97⟩ =
      (List.replicate 250 (97 : Nat)).length - 239 * 1 :=
  ⟨by decide, by decide, by decide,
    C2_lenField (List.replicate 250 97) 1 ⟨1, 11, 0, List.replicate 11 97⟩
      (by decide) (by decide) (by decide)⟩

/-- C2 counterexample: for a 65536-byte command the first chunk starts
with 65536 bytes unsent, but the 16-bit length field of the first frame
wraps to 0, so the field does not equal the unsent byte count. -/
theorem C2_counterexample :
    (otaFrames (List.replicate 65536 97))[0]? =
      some { msgType := 0, lenLo := 0, lenHi := 0, chunk := List.replicate 239 97 } ∧
    frameLenField { msgType := 0, lenLo := 0, lenHi := 0, chunk := List.replicate 239 97 } = 0 ∧
    (List.replicate (65536 : Nat) (97 : Nat)).length - 239 * 0 = 65536 ∧
    (0 : Nat) ≠ 65536 := by
  refine ⟨?_, rfl, ?_, by norm_num⟩
  · rw [otaFrames_replicate65536, List.getElem?_cons_zero]
  · rw [List.length_replicate]

/-- C3 (amended): for every outgoing message of fewer than 2^16 encoded
bytes, the first chunk's declared length field equals the full encoded
message length, and each later chunk's field is exactly 239 less than its
predecessor's (the remaining unsent count); the field is therefore the
same across chunks only when the message fits in a single chunk. -/
theorem C3_declared (p : List Nat) (h1 : p ≠ []) (h2 : p.length < 65536) :
    (∃ f0, (otaFrames p)[0]? = some f0 ∧ frameLenField f0 = p.length) ∧
    (∀ i f g, (otaFrames p)[i]? = some f → (otaFrames p)[i + 1]? = some g →
      frameLenField g + 239 = frameLenField f) := by
  constructor
  · cases p with
    | nil => exact absurd rfl h1
    | cons b tl =>
      rw [otaFrames, List.length_cons, otaChunkGo_cons_step, List.getElem?_cons_zero]
      exact ⟨_, rfl, lenField_sum _ h2⟩
  · intro i f g hf hg
    have hcf := otaFrames_getElem p i f hf
    have hcg := otaFrames_getElem p (i + 1) g hg
    have hsf := lenField_sum (p.length - 239 * i) (by omega)
    have hsg := lenField_sum (p.length - 239 * (i + 1)) (by omega)
    have hf2 : frameLenField f = p.length - 239 * i := by
      have hd : frameLenField f = f.lenLo + 256 * f.lenHi := rfl
      rw [hd, hcf.2.1, hcf.2.2, hsf]
    have hg2 : frameLenField g = p.length - 239 * (i + 1) := by
      have hd : frameLenField g = g.lenLo + 256 * g.lenHi := rfl
      rw [hd, hcg.2.1, hcg.2.2, hsg]
    have hlt := hcg.1
    omega

set_option maxRecDepth 100000 in
/-- C3 witness: a 250-byte message declares 250 in its first frame and
11 = 250 - 239 in its second. -/
theorem C3_declared_witness :
    (List.replicate 250 (97 : Nat)) ≠ [] ∧
    (List.replicate 250 (97 : Nat)).length < 65536 ∧
    ((∃ f0, (otaFrames (List.replicate 250 97))[0]? = some f0 ∧
        frameLenField f0 = (List.replicate 250 (97 : Nat)).length) ∧
     (∀ i f g, (otaFrames (List.replicate 250 97))[i]? = some f →
        (otaFrames (List.replicate 250 97))[i + 1]? = some g →
        frameLenField g + 239 = frameLenField f)) :=
  ⟨by decide, by decide, C3_declared (List.replicate 250 97) (by decide) (by decide)⟩

set_option maxRecDepth 100000 in
/-- C3 counterexample: the three frames of a 500-byte message declare
500, 261 and 22 — the declared length field is not the same across the
chunks of one message and does not stay equal to the full encoded
length. -/
theorem C3_counterexample :
    (otaFrames (List.replicate 500 97)).map frameLenField = [500, 261, 22] ∧
    (261 : Nat) ≠ 500 :=
  ⟨by decide, by decide⟩

/-- C5 (amended): whenever the receive loop has recorded an error, the
exchange fails rather than returning a value; it fails with exactly the
recorded message whenever the accumulated payload is empty or parses as
JSON.  Because processFR runs JSON.parse on a non-empty accumulator
before checking the recorded error, a non-empty accumulated payload that
is not valid JSON instead makes the exchange fail with the parse error,
overriding the recorded message (see the counterexample). -/
theorem C5_error_precedence (s : RState) (e : RErr) (he : s.error = some e) :
    (∃ fl, finishFR s = Except.error fl) ∧
    (s.data = [] → finishFR s = Except.error (FRFailure.reported e)) ∧
    (∀ v, jsonParse s.data = some v →
      finishFR s = Except.error (FRFailure.reported e)) := by
  refine ⟨?_, ?_, ?_⟩
  · by_cases hd : s.data.length > 0
    · cases hj : jsonParse s.data with
      | none => exact ⟨FRFailure.parseFailed, by rw [finishFR, if_pos hd, hj]⟩
      | some v => exact ⟨FRFailure.reported e, by rw [finishFR, if_pos hd, hj, he]⟩
    · exact ⟨FRFailure.reported e, by rw [finishFR, if_neg hd, he]⟩
  · intro hd
    rw [finishFR, hd]
    simp [he]
  · intro v hv
    by_cases hd : s.data.length > 0
    · rw [finishFR, if_pos hd, hv, he]
    · rw [finishFR, if_neg hd, he]

/-- C5 witness: a loop state that recorded the NACK message bad path with
an empty accumulator makes the exchange fail with exactly that message. -/
theorem C5_error_precedence_witness :
    (RState.mk 0 (some (RErr.nack [98, 97, 100, 32, 112, 97, 116, 104])) []).error =
      some (RErr.nack [98, 97, 100, 32, 112, 97, 116, 104]) ∧
    ((∃ fl, finishFR ⟨0, some (RErr.nack [98, 97, 100, 32, 112, 97, 116, 104]), []⟩ =
        Except.error fl) ∧
     ((RState.mk 0 (some (RErr.nack [98, 97, 100, 32, 112, 97, 116, 104])) []).data = [] →
        finishFR ⟨0, some (RErr.nack [98, 97, 100, 32, 112, 97, 116, 104]), []⟩ =
          Except.error (FRFailure.reported
            (RErr.nack [98, 97, 100, 32, 112, 97, 116, 104]))) ∧
     (∀ v, jsonParse
          (RState.mk 0 (some (RErr.nack [98, 97, 100, 32, 112, 97, 116, 104])) []).data =
            some v →
        finishFR ⟨0, some (RErr.nack [98, 97, 100, 32, 112, 97, 116, 104]), []⟩ =
          Except.error (FRFailure.reported
            (RErr.nack [98, 97, 100, 32, 112, 97, 116, 104])))) :=
  ⟨rfl, C5_error_precedence ⟨0, some (RErr.nack [98, 97, 100, 32, 112, 97, 116, 104]), []⟩
    (RErr.nack [98, 97, 100, 32, 112, 97, 116, 104]) rfl⟩

/-- C5 counterexample: a FIRST frame carrying the text abc with declared
length 10 (7 bytes still expected) followed by a NACK frame carrying the
text bad path leaves the loop with the recorded error bad path and the
accumulated payload abc; the post-loop JSON.parse of abc throws first, so
the exchange fails with the parse error and not with the recorded NACK
message — the recorded error does not override this partial payload. -/
theorem C5_counterexample :
    runLoop [[6, 0, 255, 0, 10, 0, 97, 98, 99],
             [6, 0, 255, 4, 8, 0, 98, 97, 100, 32, 112, 97, 116, 104]] ⟨1, none, []⟩ =
      RunResult.done
        ⟨0, some (RErr.nack [98, 97, 100, 32, 112, 97, 116, 104]), [97, 98, 99]⟩ ∧
    finishFR ⟨0, some (RErr.nack [98, 97, 100, 32, 112, 97, 116, 104]), [97, 98, 99]⟩ =
      Except.error FRFailure.parseFailed ∧
    FRFailure.parseFailed ≠
      FRFailure.reported (RErr.nack [98, 97, 100, 32, 112, 97, 116, 104]) :=
  ⟨by decide, rfl, by decide⟩
